import Mathlib

/-!
Verification of the Domoticz-EVCC-IO-Plugin state-reconciliation code.

The Python sources (helpers.py, constants.py, api.py, devices.py, plugin.py)
are embedded shallowly: JSON payloads become `JVal` / `Jdict` values with
Python-dict update semantics, the WebSocket partial-update buffer of
`EVCCApi` becomes the explicit state record `WsState` with `on_message`,
`on_open` and the reset part of `connect_websocket` as pure transitions,
and the unit-number allocator `get_device_unit` of helpers.py becomes a
pure function over an explicit occupied-unit list.
-/

set_option autoImplicit false

namespace EVCC

/-- JSON values as they appear in EVCC payloads. -/
inductive JVal where
  | num (n : Int)
  | str (s : String)
  | bool (b : Bool)
  | null
  | arr (xs : List JVal)
  | obj (fields : List (String × JVal))

/-- A Python dict with string keys, in insertion order (as `json.loads` yields). -/
abbrev Jdict := List (String × JVal)

/-- Python `d[k]` / `d.get(k)`: first (unique) binding of key `k`. -/
def dget : Jdict → String → Option JVal
  | [], _ => none
  | (k', v) :: d, k => if k' = k then some v else dget d k

/-- Python `k in d`. -/
def dhas (d : Jdict) (k : String) : Bool := (dget d k).isSome

/-- Python `d[k] = v`: overwrite in place if the key exists, else append. -/
def dinsert : Jdict → String → JVal → Jdict
  | [], k, v => [(k, v)]
  | (k', v') :: d, k, v => if k' = k then (k, v) :: d else (k', v') :: dinsert d k v

/-- Python `d.update(e)`: fold every binding of `e` into `d`, later keys overwriting. -/
def dupdate (d e : Jdict) : Jdict := e.foldl (fun acc p => dinsert acc p.1 p.2) d

theorem dget_dinsert_self : ∀ (d : Jdict) (k : String) (v : JVal),
    dget (dinsert d k v) k = some v
  | [], k, v => by simp [dinsert, dget]
  | (k', v') :: d, k, v => by
    by_cases h : k' = k
    · simp [dinsert, dget, h]
    · simp [dinsert, dget, h, dget_dinsert_self d k v]

theorem dget_dinsert_ne : ∀ (d : Jdict) (k k' : String) (v : JVal), k ≠ k' →
    dget (dinsert d k v) k' = dget d k'
  | [], k, k', v, h => by simp [dinsert, dget, h]
  | (k₀, v₀) :: d, k, k', v, h => by
    by_cases h₀ : k₀ = k
    · subst h₀
      simp [dinsert, dget, h]
    · by_cases h₁ : k₀ = k'
      · subst h₁
        simp [dinsert, dget, h₀]
      · simp [dinsert, dget, h₀, h₁, dget_dinsert_ne d k k' v h]

theorem dget_filter : ∀ (d : Jdict) (q : String → Bool) (k : String), q k = true →
    dget (d.filter (fun p => q p.1)) k = dget d k
  | [], _, _, _ => rfl
  | (k', v') :: d, q, k, hq => by
    by_cases h : k' = k
    · subst h
      simp [List.filter, hq, dget]
    · cases hqk : q k' <;>
        simp [List.filter, hqk, dget, h, dget_filter d q k hq]

/-! Constants from constants.py (device unit base numbers). -/

def UNIT_BASE_SITE : Int := 1
def UNIT_BASE_BATTERY : Int := 20
def UNIT_BASE_PV : Int := 40
def UNIT_BASE_TARIFF : Int := 60
def UNIT_BASE_GRID : Int := 80
def UNIT_BASE_VEHICLE : Int := 100
def UNIT_BASE_LOADPOINT : Int := 200
def UNIT_BASE_SESSION : Int := 300

/-- An external device id as passed to `get_device_unit` in helpers.py:
either a Python int or a string such as "db:2". -/
inductive DevId where
  | num (n : Int)
  | str (s : String)

/-- Python f-string rendering of a device id, as used to build the mapping key. -/
def DevId.render : DevId → String
  | .num n => toString n
  | .str s => s

/-- Python `value.split(':')` on a character list: pieces between colons,
with empty pieces kept (so `"" .split` is `[""]`, `"db:".split` is `["db",""]`). -/
def splitOnColon : List Char → List (List Char)
  | [] => [[]]
  | c :: cs =>
    if c = ':' then [] :: splitOnColon cs
    else
      match splitOnColon cs with
      | [] => [[c]]
      | p :: ps => (c :: p) :: ps

/-- Digit accumulator for `parseIntChars`. -/
def parseNatAux : List Char → Nat → Option Nat
  | [], acc => some acc
  | c :: cs, acc =>
    if c.isDigit then parseNatAux cs (acc * 10 + (c.toNat - 48)) else none

/-- Python `int(str)` restricted to optionally-signed decimal digit strings:
`none` models the `ValueError` raised on anything else (including ""). -/
def parseIntChars : List Char → Option Int
  | [] => none
  | '-' :: cs => if cs.isEmpty then none else (parseNatAux cs 0).map (fun n => -(n : Int))
  | cs => (parseNatAux cs 0).map (fun n => (n : Int))

/-- The nested `safe_int` helper of `get_device_unit` (helpers.py lines 114-125):
ints pass through; a string containing a colon yields the int parsed from the
piece after the first colon; other strings are parsed directly; any parse
failure yields the default 0. -/
def safe_int : DevId → Int
  | .num n => n
  | .str s =>
    if s.toList.contains ':' then
      match (splitOnColon s.toList)[1]? with
      | some t => (parseIntChars t).getD 0
      | none => 0
    else (parseIntChars s.toList).getD 0

/-- The base-unit computation of `get_device_unit` (helpers.py lines 110-142). -/
def base_unit_for (device_type : String) (device_id : DevId) : Int :=
  if device_type = "site" then UNIT_BASE_SITE
  else if device_type = "battery" then UNIT_BASE_BATTERY + safe_int device_id * 10
  else if device_type = "pv" then UNIT_BASE_PV + safe_int device_id * 10
  else if device_type = "tariff" then UNIT_BASE_TARIFF
  else if device_type = "grid" then UNIT_BASE_GRID
  else if device_type = "vehicle" then UNIT_BASE_VEHICLE + safe_int device_id * 20
  else if device_type = "loadpoint" then UNIT_BASE_LOADPOINT + safe_int device_id * 20
  else if device_type = "session" then UNIT_BASE_SESSION + safe_int device_id * 10
  else 1

/-- The linear probe `while unit in Devices: unit += 1` (helpers.py lines 144-153),
with explicit fuel; `occupied.length + 1` probes always reach a free unit. -/
def probe_free (occupied : List Int) : Int → Nat → Int
  | u, 0 => u
  | u, Nat.succ fuel => if u ∈ occupied then probe_free occupied (u + 1) fuel else u

/-- The two mapping dicts kept by `DeviceManager` and threaded through
`get_device_unit` (device_unit_mapping / unit_device_mapping). -/
structure MapState where
  device_mapping : List (String × Int)
  unit_device_mapping : List (Int × String)

/-- `get_device_unit` of helpers.py: return an existing mapping for the key
`{device_type}_{device_id}_{parameter}`, or (when `create_new`) allocate the
next free unit starting from the kind- and id-dependent base, commit the
mapping, and return it. `occupied` is the set of unit numbers of existing
Domoticz devices. -/
def get_device_unit (st : MapState) (occupied : List Int) (device_type : String)
    (device_id : DevId) (parameter : String) (create_new : Bool) :
    Option Int × MapState :=
  let key := device_type ++ "_" ++ device_id.render ++ "_" ++ parameter
  match st.device_mapping.lookup key with
  | some u => (some u, st)
  | none =>
    if create_new = false then (none, st)
    else
      let base := base_unit_for device_type device_id
      let unit := probe_free occupied base (occupied.length + 1)
      (some unit,
        { device_mapping := st.device_mapping ++ [(key, unit)],
          unit_device_mapping := st.unit_device_mapping ++ [(unit, key)] })

/-- Empty mapping state (fresh `DeviceManager` with no recovered records). -/
def emptyMaps : MapState := { device_mapping := [], unit_device_mapping := [] }

/-- Claim C1, counterexample: with no prior mapping and no existing devices,
the first colon-bearing vehicle id "db:2" resolves to unit 140
(UNIT_BASE_VEHICLE + 2 * 20), not to the first vehicle slot 100
(UNIT_BASE_VEHICLE + 0 * 20); moreover "db:5" first seen from the same fresh
state resolves to 200, so the assigned slot is not independent of the numeric
suffix inside the external id. -/
theorem C1_counterexample :
    (get_device_unit emptyMaps [] "vehicle" (DevId.str "db:2") "soc" true).fst = some 140 ∧
    (get_device_unit emptyMaps [] "vehicle" (DevId.str "db:2") "soc" true).fst ≠ some 100 ∧
    (get_device_unit emptyMaps [] "vehicle" (DevId.str "db:5") "soc" true).fst = some 200 := by
  refine ⟨by decide, by decide, by decide⟩

/-- Claim C1, amended: a vehicle external id seen for the first time (no prior
mapping, no existing devices) resolves to UNIT_BASE_VEHICLE + safe_int(id) * 20,
where safe_int coerces the part after the colon of a colon-bearing id to an
integer (0 on parse failure); the slot depends on that numeric suffix, not on
the order of first sighting. In particular "db:2" resolves to 140, and a second
vehicle "db:5" seen afterwards (its unit 140 now occupied) resolves to 200. -/
theorem C1_amended :
    (∀ did : DevId,
      (get_device_unit emptyMaps [] "vehicle" did "soc" true).fst
        = some (UNIT_BASE_VEHICLE + safe_int did * 20)) ∧
    (get_device_unit
        (get_device_unit emptyMaps [] "vehicle" (DevId.str "db:2") "soc" true).snd
        [140] "vehicle" (DevId.str "db:5") "soc" true).fst = some 200 := by
  refine ⟨fun did => ?_, by decide⟩
  rfl

/-! The WebSocket partial-update buffer of `EVCCApi` (api.py). -/

/-- The buffer state mutated by the WebSocket callbacks of api.py:
`ws_last_data` (base snapshot), `ws_temp_data` (partial accumulator),
`received_complete_state`, the two throttle timestamps, and the
`update_in_progress` guard. Time is in whole seconds. -/
structure WsState where
  ws_last_data : Jdict
  ws_temp_data : Jdict
  received_complete_state : Bool
  last_complete_update : Nat
  last_data_update : Nat
  update_in_progress : Bool

/-- The fields as initialized in `EVCCApi.__init__` (api.py lines 39-50);
`received_complete_state` is first assigned (False) in `connect_websocket`. -/
def initWs : WsState :=
  { ws_last_data := []
    ws_temp_data := []
    received_complete_state := false
    last_complete_update := 0
    last_data_update := 0
    update_in_progress := false }

/-- `min_complete_update_interval` (api.py line 48). -/
def min_complete_update_interval : Nat := 5

/-- `complete_state_indicators` (api.py line 145). -/
def complete_state_indicators : List String :=
  ["pvPower", "grid", "homePower", "loadpoints.0"]

/-- Size of the intersection of the indicator set with the fragment's keys. -/
def indicator_count (data : Jdict) : Nat :=
  (complete_state_indicators.filter (fun k => dhas data k)).length

/-- `is_complete_state` (api.py line 159): at least 2 indicators present. -/
def is_complete_state (data : Jdict) : Bool :=
  decide (2 ≤ indicator_count data)

/-- The `on_message` callback (api.py lines 134-199) as a state transition on
the buffer, for a fragment that parsed to a dict. A message arriving while
`update_in_progress` is set returns with no state change. A complete-looking
fragment at least 5s after the last accepted complete update replaces the base
wholesale and clears the accumulator; otherwise the fragment is folded into the
accumulator, which is merged into the base only when a base exists and at least
1s passed since the last data update. (The one-shot close timer and logging are
transport effects outside the model.) -/
def on_message (st : WsState) (data : Jdict) (current_time : Nat) : WsState :=
  if st.update_in_progress = true then st
  else if is_complete_state data = true ∧
      min_complete_update_interval ≤ current_time - st.last_complete_update then
    { st with
      ws_last_data := data
      ws_temp_data := []
      received_complete_state := true
      last_complete_update := current_time
      last_data_update := current_time }
  else if st.ws_last_data.isEmpty = false ∧ 1 ≤ current_time - st.last_data_update then
    { st with
      ws_last_data := dupdate st.ws_last_data (dupdate st.ws_temp_data data)
      ws_temp_data := []
      last_data_update := current_time }
  else
    { st with ws_temp_data := dupdate st.ws_temp_data data }

/-- The `on_open` callback (api.py lines 215-223): resets the data buffers,
both timestamps and the in-progress guard (it does not touch
`received_complete_state`). -/
def on_open (st : WsState) : WsState :=
  { st with
    ws_last_data := []
    ws_temp_data := []
    last_complete_update := 0
    last_data_update := 0
    update_in_progress := false }

/-- The buffer-reset part of `connect_websocket` (api.py lines 126-131), run
before a fresh connection attempt: clears the completeness flag and both data
buffers (not the timestamps). -/
def connect_websocket_reset (st : WsState) : WsState :=
  { st with
    received_complete_state := false
    ws_last_data := []
    ws_temp_data := [] }

/-- The cached-data guard at the top of `get_state` (api.py lines 332-334):
WebSocket data is returned iff the socket is connected and the base snapshot
dict is non-empty (truthy); otherwise the caller falls through to
reconnect/REST. -/
def get_state_cached (ws_connected : Bool) (st : WsState) : Option Jdict :=
  if ws_connected = true ∧ st.ws_last_data.isEmpty = false then some st.ws_last_data
  else none

/-- Fragment for the C2 scenario: a lone partial `{"gridPower": 100}`. -/
def c2frag : Jdict := [("gridPower", JVal.num 100)]

/-- Claim C2, counterexample: a partial fragment `{"gridPower": 100}` arriving
on a fresh connection before any complete snapshot does NOT become a tentative
base: the base snapshot stays empty (so it is not the fragment), the fragment
sits only in the temporary accumulator, and `get_state` does not return any
cached WebSocket data even while connected. -/
theorem C2_counterexample :
    (on_message initWs c2frag 10).ws_last_data = [] ∧
    (on_message initWs c2frag 10).ws_last_data ≠ c2frag ∧
    (on_message initWs c2frag 10).ws_temp_data = [("gridPower", JVal.num 100)] ∧
    get_state_cached true (on_message initWs c2frag 10) = none := by
  have hbase : (on_message initWs c2frag 10).ws_last_data = [] := rfl
  refine ⟨hbase, ?_, rfl, rfl⟩
  intro h
  exact List.cons_ne_nil _ _ (hbase.symm.trans h).symm

/-- Claim C2, amended: a non-complete fragment that arrives before any complete
snapshot has been seen (empty base) is retained only in the temporary
accumulator `ws_temp_data`; the base snapshot stays empty, so downstream
consumers (`get_state`) gain no visibility of it until the first complete
update establishes a base. -/
theorem C2_amended (st : WsState) (data : Jdict) (t : Nat) (c : Bool)
    (h1 : st.update_in_progress = false)
    (h2 : st.ws_last_data = [])
    (h3 : ¬(is_complete_state data = true ∧
        min_complete_update_interval ≤ t - st.last_complete_update)) :
    (on_message st data t).ws_last_data = [] ∧
    (on_message st data t).ws_temp_data = dupdate st.ws_temp_data data ∧
    get_state_cached c (on_message st data t) = none := by
  have hmsg : on_message st data t = { st with ws_temp_data := dupdate st.ws_temp_data data } := by
    unfold on_message
    rw [if_neg (by simp [h1]), if_neg h3, if_neg (by simp [h2])]
  refine ⟨by rw [hmsg]; exact h2, by rw [hmsg], ?_⟩
  rw [hmsg]
  simp [get_state_cached, h2]

/-- Claim C2, amended, witness: the lone fragment `{"gridPower": 100}` at t=10
on a fresh buffer. -/
theorem C2_witness :
    (initWs.update_in_progress = false ∧ initWs.ws_last_data = [] ∧
      ¬(is_complete_state c2frag = true ∧
        min_complete_update_interval ≤ 10 - initWs.last_complete_update)) ∧
    ((on_message initWs c2frag 10).ws_last_data = [] ∧
      (on_message initWs c2frag 10).ws_temp_data = dupdate initWs.ws_temp_data c2frag ∧
      get_state_cached true (on_message initWs c2frag 10) = none) :=
  ⟨⟨rfl, rfl, by decide⟩, C2_amended initWs c2frag 10 true rfl rfl (by decide)⟩

/-- Python `s.startswith(p)` on character lists (kept structural so concrete
instances evaluate). -/
def strStartsWith (s p : String) : Bool := p.toList.isPrefixOf s.toList

/-- Modelled from the spec: the hallmark-key rule as the spec sentence states
it — a fragment counts one hallmark for each of grid power, home power, PV
power, version and the vehicle collection present among its top-level keys,
plus one if any flattened per-loadpoint-prefix key (`loadpoints.<n>...`) is
present. This definition follows the spec's words; the code's rule is
`is_complete_state`. -/
def spec_hallmark_count (data : Jdict) : Nat :=
  (["gridPower", "homePower", "pvPower", "version", "vehicles"].filter
      (fun k => dhas data k)).length +
    (if data.any (fun p => strStartsWith p.1 "loadpoints.") then 1 else 0)

/-- Modelled from the spec: a fragment is complete iff it has at least 2
hallmarks of the spec's six-member set. -/
def spec_is_complete (data : Jdict) : Bool :=
  decide (2 ≤ spec_hallmark_count data)

/-- Fragment for the C3 counterexample: version string plus vehicle
collection, two of the spec's claimed hallmark keys. -/
def c3frag : Jdict := [("version", JVal.str "0.133.0"), ("vehicles", JVal.obj [])]

/-- Claim C3, counterexample: the fragment
`{"version": "0.133.0", "vehicles": {}}` carries 2 keys of the claimed
hallmark set (version and the vehicle collection), so the claim classifies it
as a complete state dump; the code's indicator set
`{"pvPower", "grid", "homePower", "loadpoints.0"}` matches none of its keys,
so `on_message` treats it as a partial: the base snapshot is not replaced and
the completeness flag stays false. -/
theorem C3_counterexample :
    spec_is_complete c3frag = true ∧
    is_complete_state c3frag = false ∧
    (on_message initWs c3frag 100).ws_last_data = [] ∧
    (on_message initWs c3frag 100).received_complete_state = false :=
  ⟨rfl, rfl, rfl, rfl⟩

/-- Claim C3, amended: a flat streaming fragment is classified as a complete
state dump iff it contains at least 2 keys of the code's fixed indicator set
`{"pvPower", "grid", "homePower", "loadpoints.0"}` (the spec's "version",
"vehicle collection" and arbitrary per-loadpoint-prefix members are not
indicators; only the literal key "loadpoints.0" is). Only a fragment so
classified — and only when the 5s minimum interval since the last accepted
complete update has elapsed — replaces the buffer's base snapshot wholesale
and sets the completeness flag; every other fragment is merged as a partial
(the base snapshot is either left unchanged or extended by merging the
accumulated partial keys, and the completeness flag is unchanged). -/
theorem C3_amended (st : WsState) (data : Jdict) (t : Nat)
    (h : st.update_in_progress = false) :
    ((is_complete_state data = true ∧
        min_complete_update_interval ≤ t - st.last_complete_update) →
      (on_message st data t).ws_last_data = data ∧
      (on_message st data t).ws_temp_data = [] ∧
      (on_message st data t).received_complete_state = true) ∧
    (¬(is_complete_state data = true ∧
        min_complete_update_interval ≤ t - st.last_complete_update) →
      (on_message st data t).received_complete_state = st.received_complete_state ∧
      ((on_message st data t).ws_last_data = st.ws_last_data ∨
        (on_message st data t).ws_last_data
          = dupdate st.ws_last_data (dupdate st.ws_temp_data data))) := by
  constructor
  · intro hc
    unfold on_message
    rw [if_neg (by simp [h]), if_pos hc]
    exact ⟨rfl, rfl, rfl⟩
  · intro hc
    unfold on_message
    rw [if_neg (by simp [h]), if_neg hc]
    by_cases hb : st.ws_last_data.isEmpty = false ∧ 1 ≤ t - st.last_data_update
    · rw [if_pos hb]
      exact ⟨rfl, Or.inr rfl⟩
    · rw [if_neg hb]
      exact ⟨rfl, Or.inl rfl⟩

/-- Complete-looking fragment (2 indicators: pvPower and homePower). -/
def completeFrag : Jdict := [("pvPower", JVal.num 50), ("homePower", JVal.num 80)]

/-- Claim C3, amended, witness: on a fresh buffer at t=10 the two-indicator
fragment replaces the base wholesale. -/
theorem C3_witness :
    initWs.update_in_progress = false ∧
    (on_message initWs completeFrag 10).ws_last_data = completeFrag :=
  ⟨rfl, ((C3_amended initWs completeFrag 10 rfl).1 ⟨by decide, by decide⟩).1⟩

/-- Claim C4, counterexample: after a complete update sets the completeness
flag, a reconnect's `on_open` callback leaves `received_complete_state` true —
the open callback does not set the completeness flag false as the claim
states. -/
theorem C4_counterexample :
    (on_message initWs completeFrag 10).received_complete_state = true ∧
    (on_open (on_message initWs completeFrag 10)).received_complete_state = true :=
  ⟨rfl, rfl⟩

/-- Claim C4, amended: on every stream connection open, `on_open` clears the
base snapshot, clears the temporary partial accumulator, zeroes both throttle
timestamps and clears the in-progress guard — but it leaves the completeness
flag `received_complete_state` at its prior value; that flag (together with
the two data buffers) is reset only by the `connect_websocket` pre-connection
reset, which is not run when the background thread reopens a lost connection
by itself. -/
theorem C4_amended (st : WsState) :
    (on_open st).ws_last_data = [] ∧
    (on_open st).ws_temp_data = [] ∧
    (on_open st).last_complete_update = 0 ∧
    (on_open st).last_data_update = 0 ∧
    (on_open st).update_in_progress = false ∧
    (on_open st).received_complete_state = st.received_complete_state ∧
    (connect_websocket_reset st).received_complete_state = false ∧
    (connect_websocket_reset st).ws_last_data = [] ∧
    (connect_websocket_reset st).ws_temp_data = [] :=
  ⟨rfl, rfl, rfl, rfl, rfl, rfl, rfl, rfl, rfl⟩

/-- Buffer state in the middle of a merge: `on_message` has set
`update_in_progress` (api.py line 154) and has not yet cleared it. -/
def c8midmerge : WsState := { initWs with update_in_progress := true }

/-- Fragment arriving while the merge above is in progress. -/
def c8frag : Jdict := [("homePower", JVal.num 250)]

/-- Claim C8, counterexample: a fragment that arrives while
`update_in_progress` is set is not queued or deferred — `on_message` returns
with the buffer completely unchanged, so the fragment's content
(`homePower = 250`) appears neither in the accumulator nor in the base: it is
lost. -/
theorem C8_counterexample :
    on_message c8midmerge c8frag 10 = c8midmerge ∧
    (on_message c8midmerge c8frag 10).ws_temp_data = [] ∧
    (on_message c8midmerge c8frag 10).ws_last_data = [] :=
  ⟨rfl, rfl, rfl⟩

/-- Claim C8, amended: a fragment that arrives on the streaming connection
while `update_in_progress` is set on the buffer is skipped entirely — the
buffer state is returned unchanged and the fragment is never processed later;
it is dropped, not queued or deferred. -/
theorem C8_amended (st : WsState) (data : Jdict) (t : Nat)
    (h : st.update_in_progress = true) :
    on_message st data t = st := by
  unfold on_message
  rw [if_pos h]

/-- Claim C8, amended, witness: the mid-merge buffer drops the fragment. -/
theorem C8_witness :
    c8midmerge.update_in_progress = true ∧
    on_message c8midmerge c8frag 10 = c8midmerge :=
  ⟨rfl, C8_amended c8midmerge c8frag 10 rfl⟩

/-! Command translation: plugin.py `onCommand` (UI level to controller value)
and the decode tables of devices.py (controller value to UI level). -/

/-- UI charging-mode level to controller mode string
(plugin.py lines 598-601): default "off". -/
def loadpoint_mode_to_controller (level : Int) : String :=
  if level = 10 then "now"
  else if level = 20 then "minpv"
  else if level = 30 then "pv"
  else "off"

/-- UI phases level to controller phase count (plugin.py lines 612-615):
default 0 (auto). -/
def phases_to_controller (level : Int) : Int :=
  if level = 0 then 0
  else if level = 10 then 1
  else if level = 20 then 3
  else 0

/-- UI battery-mode level to controller mode string (plugin.py lines 644-648):
the initial value "normal" is the default for any unlisted level (including
level 40 / External, which has no case of its own). -/
def battery_mode_to_controller (level : Int) : String :=
  if level = 0 then "unknown"
  else if level = 10 then "normal"
  else if level = 20 then "hold"
  else if level = 30 then "charge"
  else "normal"

/-- Controller charging-mode string to UI selector level
(devices.py lines 755-761): default 0. -/
def loadpoint_mode_to_ui (mode : String) : Int :=
  if mode = "off" then 0
  else if mode = "now" then 10
  else if mode = "minpv" then 20
  else if mode = "pv" then 30
  else 0

/-- Controller phase count to UI selector level (devices.py lines 768-773):
default 0. -/
def phases_to_ui (phases : Int) : Int :=
  if phases = 0 then 0
  else if phases = 1 then 10
  else if phases = 3 then 20
  else 0

/-- Python `s.lower()` for ASCII mode strings, kept structural over the
character list so concrete instances evaluate. -/
def strToLower (s : String) : String := String.mk (s.toList.map Char.toLower)

/-- Controller battery-mode string (lower-cased) to UI selector level
(devices.py lines 667-673): default 0 (unknown). -/
def battery_mode_to_ui (mode : String) : Int :=
  let m := strToLower mode
  if m = "normal" then 10
  else if m = "hold" then 20
  else if m = "charge" then 30
  else if m = "external" then 40
  else 0

/-- Controller vehicle charge-status code to UI selector level
(devices.py lines 720-725): default 0 (disconnected). -/
def vehicle_status_to_ui (status : String) : Int :=
  if status = "A" then 10
  else if status = "B" then 20
  else if status = "C" then 30
  else 0

/-- A semantic REST request issued by `onCommand` via the `EVCCApi`
set-methods (api.py lines 377-465). -/
inductive ApiCall where
  | setMode (loadpoint_id : String) (mode : String)
  | setPhases (loadpoint_id : String) (phases : Int)
  | setMinSoc (loadpoint_id : String) (v : Int)
  | setTargetSoc (loadpoint_id : String) (v : Int)
  | setBatteryMode (mode : String)
deriving DecidableEq

/-- All `EVCCApi` set-methods return True iff the POST answered HTTP 200; a
transport exception (status `none`) returns False. -/
def http_ok : Option Nat → Bool
  | some 200 => true
  | _ => false

/-- The observable effect of one `onCommand` invocation: the request sent to
the controller, and the `update_device_value(nValue, sValue)` write applied to
the local device (None when the device is left unchanged). -/
structure CommandEffect where
  apiCall : Option ApiCall
  deviceWrite : Option (Int × Int)

/-- `onCommand` (plugin.py lines 582-666) for a device whose description
parsed to `device_type`/`parameter`, with `external_id` already resolved from
DeviceID, dispatched on the command's UI `level`; `status` is the HTTP status
the controller answered (none for a transport error). The local device is
written only inside the `if self.api.set_...(...)` success branch. -/
def onCommand (device_type parameter external_id : String) (level : Int)
    (status : Option Nat) : CommandEffect :=
  if device_type = "loadpoint" then
    if parameter = "mode" then
      { apiCall := some (ApiCall.setMode external_id (loadpoint_mode_to_controller level))
        deviceWrite := if http_ok status = true then some (level, 0) else none }
    else if parameter = "phases" then
      { apiCall := some (ApiCall.setPhases external_id (phases_to_controller level))
        deviceWrite := if http_ok status = true then some (level, 0) else none }
    else if parameter = "min_soc" then
      { apiCall := some (ApiCall.setMinSoc external_id level)
        deviceWrite := if http_ok status = true then some (0, level) else none }
    else if parameter = "target_soc" then
      { apiCall := some (ApiCall.setTargetSoc external_id level)
        deviceWrite := if http_ok status = true then some (0, level) else none }
    else { apiCall := none, deviceWrite := none }
  else if device_type = "battery" ∧ parameter = "mode" then
    { apiCall := some (ApiCall.setBatteryMode (battery_mode_to_controller level))
      deviceWrite := if http_ok status = true then some (level, 0) else none }
  else { apiCall := none, deviceWrite := none }

/-- Claim C5: for every device command, the controller request precedes the
local write and the local device is updated only on confirmed success: when
the controller's answer is not HTTP 200 (including transport errors), the
displayed device value is left unchanged (`deviceWrite = none`), while the
request itself was still issued — in particular `phases` level 20 issues a
request for phases = 3 and, on a failing status, writes nothing. -/
theorem C5_command_write_only_on_success (device_type parameter external_id : String)
    (level : Int) (status : Option Nat) (h : http_ok status = false) :
    (onCommand device_type parameter external_id level status).deviceWrite = none ∧
    (onCommand "loadpoint" "phases" external_id 20 status).apiCall
      = some (ApiCall.setPhases external_id 3) ∧
    (onCommand "loadpoint" "phases" external_id 20 (some 200)).deviceWrite
      = some (20, 0) := by
  refine ⟨?_, ?_, ?_⟩
  · unfold onCommand
    simp [h, apply_ite CommandEffect.deviceWrite]
  · simp [onCommand, phases_to_controller]
  · simp [onCommand, http_ok]

/-- Claim C5, witness: `set loadpoint phases, level 20` against an HTTP 500
response issues the phases=3 request and leaves the device untouched. -/
theorem C5_witness :
    http_ok (some 500) = false ∧
    ((onCommand "loadpoint" "phases" "1" 20 (some 500)).deviceWrite = none ∧
      (onCommand "loadpoint" "phases" "1" 20 (some 500)).apiCall
        = some (ApiCall.setPhases "1" 3) ∧
      (onCommand "loadpoint" "phases" "1" 20 (some 200)).deviceWrite = some (20, 0)) :=
  ⟨rfl, C5_command_write_only_on_success "loadpoint" "phases" "1" 20 (some 500) rfl⟩

/-- Claim C6, counterexample: battery-mode UI level 40 (External) does not
round-trip: `onCommand` has no case for level 40, so it sends the default
controller mode "normal", which decodes back to UI level 10, not 40. -/
theorem C6_counterexample :
    battery_mode_to_controller 40 = "normal" ∧
    battery_mode_to_ui (battery_mode_to_controller 40) = 10 ∧
    (10 : Int) ≠ 40 :=
  ⟨rfl, rfl, by decide⟩

/-- Claim C6, amended: command translation round-trips for charging-mode
levels 0/10/20/30, phases levels 0/10/20 and battery-mode levels 0/10/20/30 —
but not for battery-mode level 40 (external), which encodes to the default
controller mode "normal" and decodes back to 10. -/
theorem C6_amended :
    (loadpoint_mode_to_ui (loadpoint_mode_to_controller 0) = 0 ∧
      loadpoint_mode_to_ui (loadpoint_mode_to_controller 10) = 10 ∧
      loadpoint_mode_to_ui (loadpoint_mode_to_controller 20) = 20 ∧
      loadpoint_mode_to_ui (loadpoint_mode_to_controller 30) = 30) ∧
    (phases_to_ui (phases_to_controller 0) = 0 ∧
      phases_to_ui (phases_to_controller 10) = 10 ∧
      phases_to_ui (phases_to_controller 20) = 20) ∧
    (battery_mode_to_ui (battery_mode_to_controller 0) = 0 ∧
      battery_mode_to_ui (battery_mode_to_controller 10) = 10 ∧
      battery_mode_to_ui (battery_mode_to_controller 20) = 20 ∧
      battery_mode_to_ui (battery_mode_to_controller 30) = 30) ∧
    battery_mode_to_ui (battery_mode_to_controller 40) = 10 := by
  decide

/-- Claim C7, counterexample: a battery-mode UI level outside the table (e.g.
5) maps to the controller mode "normal", not to "unknown" as the claim
states. -/
theorem C7_counterexample :
    battery_mode_to_controller 5 = "normal" ∧ "normal" ≠ "unknown" :=
  ⟨rfl, by decide⟩

/-- Claim C7, amended: for enumerated command parameters, any UI level not
present in the translation table maps to the table's defined default rather
than failing: charging mode defaults to "off", phases to 0 (auto), battery
mode to "normal" (not "unknown"), and an unrecognized vehicle status code
decodes to 0 (disconnected). -/
theorem C7_amended (lm lp lb : Int) (s : String)
    (hm : lm ≠ 10 ∧ lm ≠ 20 ∧ lm ≠ 30)
    (hp : lp ≠ 0 ∧ lp ≠ 10 ∧ lp ≠ 20)
    (hb : lb ≠ 0 ∧ lb ≠ 10 ∧ lb ≠ 20 ∧ lb ≠ 30)
    (hs : s ≠ "A" ∧ s ≠ "B" ∧ s ≠ "C") :
    loadpoint_mode_to_controller lm = "off" ∧
    phases_to_controller lp = 0 ∧
    battery_mode_to_controller lb = "normal" ∧
    vehicle_status_to_ui s = 0 := by
  obtain ⟨m1, m2, m3⟩ := hm
  obtain ⟨p1, p2, p3⟩ := hp
  obtain ⟨b1, b2, b3, b4⟩ := hb
  obtain ⟨s1, s2, s3⟩ := hs
  refine ⟨?_, ?_, ?_, ?_⟩
  · simp [loadpoint_mode_to_controller, m1, m2, m3]
  · simp [phases_to_controller, p1, p2, p3]
  · simp [battery_mode_to_controller, b1, b2, b3, b4]
  · simp [vehicle_status_to_ui, s1, s2, s3]

/-- Claim C7, amended, witness: level 5 and status "X" take every default. -/
theorem C7_witness :
    (((5 : Int) ≠ 10 ∧ (5 : Int) ≠ 20 ∧ (5 : Int) ≠ 30) ∧
      ((5 : Int) ≠ 0 ∧ (5 : Int) ≠ 10 ∧ (5 : Int) ≠ 20) ∧
      ((5 : Int) ≠ 0 ∧ (5 : Int) ≠ 10 ∧ (5 : Int) ≠ 20 ∧ (5 : Int) ≠ 30) ∧
      ("X" ≠ "A" ∧ "X" ≠ "B" ∧ "X" ≠ "C")) ∧
    (loadpoint_mode_to_controller 5 = "off" ∧
      phases_to_controller 5 = 0 ∧
      battery_mode_to_controller 5 = "normal" ∧
      vehicle_status_to_ui "X" = 0) :=
  ⟨⟨by decide, by decide, by decide, by decide⟩,
    C7_amended 5 5 5 "X" (by decide) (by decide) (by decide) (by decide)⟩

/-! Site-level normalization: the grid-power branch of
`update_site_devices` (devices.py lines 530-540) and the flat-key mapping of
`_update_devices_from_websocket_data` (plugin.py lines 415-457). -/

/-- The value written to the grid-power device by `update_site_devices`
(devices.py lines 530-540): the flat `gridPower` scalar if present, else the
`power` field nested inside a `grid` object, else nothing. -/
def site_grid_power_value (site_data : Jdict) : Option JVal :=
  match dget site_data "gridPower" with
  | some v => some v
  | none =>
    match dget site_data "grid" with
    | some (JVal.obj g) =>
      match dget g "power" with
      | some w => some w
      | none => none
    | _ => none

/-- The key filter building `site_data` in plugin.py (lines 419-422): every
key not prefixed `loadpoints.` or `vehicles.` is site-level. -/
def site_key (s : String) : Bool :=
  !(strStartsWith s "loadpoints." || strStartsWith s "vehicles.")

/-- `site_data` extraction (plugin.py lines 419-422). -/
def ws_site_filter (data : Jdict) : Jdict :=
  data.filter (fun p => site_key p.1)

/-- Synthesis of the flat `gridPower` from the dotted `grid.power` key
(plugin.py lines 425-426), applied only when no flat scalar is present. -/
def ws_grid_flat (data sd : Jdict) : Jdict :=
  if dhas sd "gridPower" = false ∧ dhas data "grid.power" = true then
    match dget data "grid.power" with
    | some v => dinsert sd "gridPower" v
    | none => sd
  else sd

/-- The nested `grid` object rebuilt from the dotted keys
(plugin.py lines 429-433). -/
def ws_grid_fields (data : Jdict) : Jdict :=
  let g : Jdict := match dget data "grid.power" with
    | some v => [("power", v)]
    | none => []
  let g : Jdict := match dget data "grid.currents" with
    | some (JVal.arr xs) => g ++ [("currents", JVal.arr xs)]
    | _ => g
  match dget data "grid.energy" with
  | some v => g ++ [("energy", v)]
  | none => g

/-- Synthesis of the nested `grid` object (plugin.py lines 428-433). -/
def ws_grid_obj (data sd : Jdict) : Jdict :=
  if dhas sd "grid" = false ∧ dhas data "grid.power" = true then
    dinsert sd "grid" (JVal.obj (ws_grid_fields data))
  else sd

/-- The battery entry rebuilt from flat battery fields
(plugin.py lines 439-447), in insertion order. -/
def ws_battery_fields (sd : Jdict) : Jdict :=
  let bd : Jdict := []
  let bd : Jdict := match dget sd "batteryPower" with
    | some v => bd ++ [("power", v)]
    | none => bd
  let bd : Jdict := match dget sd "batterySoc" with
    | some v => bd ++ [("soc", v)]
    | none => bd
  let bd : Jdict := match dget sd "batteryMode" with
    | some v => bd ++ [("mode", v)]
    | none => bd
  match dget sd "batteryEnergy" with
  | some v => bd ++ [("energy", v)]
  | none => bd

/-- The battery restructuring step (plugin.py lines 436-450): when any flat
battery field is present and no `battery` key exists, a one-element battery
array is synthesized (empty if no field yielded data, per the Python guard). -/
def ws_battery (sd : Jdict) : Jdict :=
  if (dhas sd "batteryPower" || dhas sd "batterySoc" ||
      dhas sd "batteryMode" || dhas sd "batteryEnergy") = true then
    if dhas sd "battery" = false then
      if (ws_battery_fields sd).isEmpty = false then
        dinsert sd "battery"
          (JVal.arr [JVal.obj (ws_battery_fields sd ++ [("title", JVal.str "Battery")])])
      else dinsert sd "battery" (JVal.arr [])
    else sd
  else sd

/-- The complete `site_data` computed by `_update_devices_from_websocket_data`
(plugin.py lines 419-450) before it is passed to `update_site_devices`. -/
def ws_site_data (data : Jdict) : Jdict :=
  ws_battery (ws_grid_obj data (ws_grid_flat data (ws_site_filter data)))

theorem dget_ws_grid_obj (data sd : Jdict) (k : String) (h : k ≠ "grid") :
    dget (ws_grid_obj data sd) k = dget sd k := by
  unfold ws_grid_obj
  split
  · exact dget_dinsert_ne sd "grid" k _ (Ne.symm h)
  · rfl

theorem dget_ws_battery (sd : Jdict) (k : String) (h : k ≠ "battery") :
    dget (ws_battery sd) k = dget sd k := by
  unfold ws_battery
  split
  · split
    · split
      · exact dget_dinsert_ne sd "battery" k _ (Ne.symm h)
      · exact dget_dinsert_ne sd "battery" k _ (Ne.symm h)
    · rfl
  · rfl

/-- Claim C9: grid power is looked up in both wire locations. In
`update_site_devices` the flat `gridPower` scalar is preferred whenever
present and the nested `grid.power` field is the fallback; in the WebSocket
normalization the flat field is synthesized from the dotted `grid.power` key
when only that form exists, and an already-present flat scalar is kept, so
downstream code has one lookup path. -/
theorem C9_grid_power_dual_location (d1 d2 d3 d4 g : Jdict) (v1 w2 w3 v4 : JVal)
    (h1 : dget d1 "gridPower" = some v1)
    (h2a : dget d2 "gridPower" = none)
    (h2b : dget d2 "grid" = some (JVal.obj g))
    (h2c : dget g "power" = some w2)
    (h3a : dget d3 "gridPower" = none)
    (h3b : dget d3 "grid.power" = some w3)
    (h4 : dget d4 "gridPower" = some v4) :
    site_grid_power_value d1 = some v1 ∧
    site_grid_power_value d2 = some w2 ∧
    dget (ws_site_data d3) "gridPower" = some w3 ∧
    dget (ws_site_data d4) "gridPower" = some v4 := by
  refine ⟨?_, ?_, ?_, ?_⟩
  · simp [site_grid_power_value, h1]
  · simp [site_grid_power_value, h2a, h2b, h2c]
  · have hf : dget (ws_site_filter d3) "gridPower" = none := by
      unfold ws_site_filter
      rw [dget_filter d3 site_key "gridPower" (by decide)]
      exact h3a
    have hflat : dget (ws_grid_flat d3 (ws_site_filter d3)) "gridPower" = some w3 := by
      have c1 : dhas (ws_site_filter d3) "gridPower" = false := by
        unfold dhas
        rw [hf]
        rfl
      have c2 : dhas d3 "grid.power" = true := by
        unfold dhas
        rw [h3b]
        rfl
      unfold ws_grid_flat
      rw [if_pos ⟨c1, c2⟩, h3b]
      exact dget_dinsert_self _ _ _
    calc dget (ws_site_data d3) "gridPower"
        = dget (ws_grid_obj d3 (ws_grid_flat d3 (ws_site_filter d3))) "gridPower" :=
          dget_ws_battery _ _ (by decide)
      _ = dget (ws_grid_flat d3 (ws_site_filter d3)) "gridPower" :=
          dget_ws_grid_obj _ _ _ (by decide)
      _ = some w3 := hflat
  · have hf : dget (ws_site_filter d4) "gridPower" = some v4 := by
      unfold ws_site_filter
      rw [dget_filter d4 site_key "gridPower" (by decide)]
      exact h4
    have hflat : dget (ws_grid_flat d4 (ws_site_filter d4)) "gridPower" = some v4 := by
      have hneg : ¬(dhas (ws_site_filter d4) "gridPower" = false ∧
          dhas d4 "grid.power" = true) := by
        intro hc
        have hc1 := hc.1
        unfold dhas at hc1
        rw [hf] at hc1
        simp at hc1
      unfold ws_grid_flat
      rw [if_neg hneg]
      exact hf
    calc dget (ws_site_data d4) "gridPower"
        = dget (ws_grid_obj d4 (ws_grid_flat d4 (ws_site_filter d4))) "gridPower" :=
          dget_ws_battery _ _ (by decide)
      _ = dget (ws_grid_flat d4 (ws_site_filter d4)) "gridPower" :=
          dget_ws_grid_obj _ _ _ (by decide)
      _ = some v4 := hflat

/-- Site payload with both flat and nested grid power, for the C9 witness. -/
def c9both : Jdict :=
  [("gridPower", JVal.num 500), ("grid", JVal.obj [("power", JVal.num 400)])]

/-- Site payload with only the nested grid object, for the C9 witness. -/
def c9nested : Jdict := [("grid", JVal.obj [("power", JVal.num 400)])]

/-- Streaming payload with only the dotted `grid.power` key, for the C9
witness. -/
def c9dotted : Jdict := [("grid.power", JVal.num 250)]

/-- Streaming payload with both the flat scalar and the dotted key, for the
C9 witness. -/
def c9flatdotted : Jdict :=
  [("gridPower", JVal.num 100), ("grid.power", JVal.num 250)]

/-- Claim C9, witness: both-present prefers the flat 500, nested-only falls
back to 400, dotted-only synthesizes 250, and flat-plus-dotted keeps 100. -/
theorem C9_witness :
    (dget c9both "gridPower" = some (JVal.num 500) ∧
      dget c9nested "gridPower" = none ∧
      dget c9nested "grid" = some (JVal.obj [("power", JVal.num 400)]) ∧
      dget [("power", JVal.num 400)] "power" = some (JVal.num 400) ∧
      dget c9dotted "gridPower" = none ∧
      dget c9dotted "grid.power" = some (JVal.num 250) ∧
      dget c9flatdotted "gridPower" = some (JVal.num 100)) ∧
    (site_grid_power_value c9both = some (JVal.num 500) ∧
      site_grid_power_value c9nested = some (JVal.num 400) ∧
      dget (ws_site_data c9dotted) "gridPower" = some (JVal.num 250) ∧
      dget (ws_site_data c9flatdotted) "gridPower" = some (JVal.num 100)) :=
  ⟨⟨rfl, rfl, rfl, rfl, rfl, rfl, rfl⟩,
    C9_grid_power_dual_location c9both c9nested c9dotted c9flatdotted
      [("power", JVal.num 400)] (JVal.num 500) (JVal.num 400) (JVal.num 250)
      (JVal.num 100) rfl rfl rfl rfl rfl rfl rfl⟩

/-- The sValue written to the connected-duration device by
`update_loadpoint_devices` (devices.py lines 839-846): none when the field is
absent; 0 when the value equals the max-int sentinel 2147483647; the raw value
otherwise. -/
def connected_duration_svalue (loadpoint_data : Jdict) : Option JVal :=
  match dget loadpoint_data "connectedDuration" with
  | none => none
  | some (JVal.num n) =>
    if n = 2147483647 then some (JVal.num 0) else some (JVal.num n)
  | some v => some v

/-- Claim C10: a loadpoint update carrying `connectedDuration` writes 0 to the
connected-duration device when the value is the 32-bit max-int sentinel
2147483647, and writes every other value through unchanged. -/
theorem C10_connected_duration_sentinel (d : Jdict) (v : JVal)
    (h : dget d "connectedDuration" = some v) :
    (v = JVal.num 2147483647 → connected_duration_svalue d = some (JVal.num 0)) ∧
    (v ≠ JVal.num 2147483647 → connected_duration_svalue d = some v) := by
  constructor
  · intro hv
    subst hv
    unfold connected_duration_svalue
    rw [h]
    rfl
  · intro hv
    unfold connected_duration_svalue
    rw [h]
    cases v with
    | num n =>
      have hn : n ≠ 2147483647 := fun he => hv (by rw [he])
      simp [hn]
    | str s => rfl
    | bool b => rfl
    | null => rfl
    | arr xs => rfl
    | obj fs => rfl

/-- Claim C10, witness: the sentinel value is written as 0 and an ordinary
duration of 77 seconds passes through unchanged. -/
theorem C10_witness :
    (dget [("connectedDuration", JVal.num 2147483647)] "connectedDuration"
        = some (JVal.num 2147483647) ∧
      connected_duration_svalue [("connectedDuration", JVal.num 2147483647)]
        = some (JVal.num 0)) ∧
    connected_duration_svalue [("connectedDuration", JVal.num 77)]
      = some (JVal.num 77) :=
  ⟨⟨rfl,
      (C10_connected_duration_sentinel [("connectedDuration", JVal.num 2147483647)]
        (JVal.num 2147483647) rfl).1 rfl⟩,
    rfl⟩

end EVCC
